import Mathlib

set_option maxRecDepth 8000

/-!
Shallow embedding of the browser terminal session core of the repository
(`src/components/terminal/xterm-terminal.tsx`): the wire-URL derivation
(`parseUrl`), the single-byte-command frame codec (`sendData` and the
`socket.onmessage` decoder), the handshake sent by `socket.onopen`, the
connect/reconnect behaviour of the `wsUrl` effect (`socket.onclose`, the
3000 ms reconnect timer and the effect cleanup), the line-feed debounce and
scroll-indicator logic (`terminal.onLineFeed`, `handleScrollToBottom`,
`terminal.onData`), and the `isTerminalAtBottom` predicate.

Event-handler code is embedded as explicit step functions over small state
records; timers and socket events become explicit events, so that the
scheduling behaviour of the handlers can be stated and proved.
-/

/-! ## URL parsing and wire-URL derivation (`parseUrl`, lines 409-434) -/

/-- Modelled platform behaviour: the result of the JS `new URL(wsUrl)`
constructor, restricted to the four fields the component reads.
`protocol` includes the trailing colon (e.g. `"https:"`), `host` is the
authority, `pathname` always starts with a slash (JS normalises an absent
path to `"/"` for http(s) URLs), and `search` is the raw query string
including its leading question mark, or empty when there is no query. -/
structure JSURL where
  protocol : String
  host : String
  pathname : String
  search : String
deriving DecidableEq

/-- Modelled platform behaviour of `new URL(s)` for absolute http(s)-style
URLs without user info, fragments or percent-escapes (the shape the
component receives): scheme up to the first colon, then a double slash,
then the host up to the first slash or question mark, then the pathname
and the search string.  Returns `none` where the JS constructor throws
(no `scheme://`, empty host). -/
def parseJSURL (s : String) : Option JSURL :=
  match s.data.takeWhile (fun c => c != ':'), s.data.dropWhile (fun c => c != ':') with
  | [], _ => none
  | scheme, ':' :: '/' :: '/' :: r =>
    let hostPart := r.takeWhile (fun c => c != '/' && c != '?')
    let afterHost := r.dropWhile (fun c => c != '/' && c != '?')
    if hostPart = [] then none
    else
      let pathChars := afterHost.takeWhile (fun c => c != '?')
      let searchChars := afterHost.dropWhile (fun c => c != '?')
      some { protocol := String.mk (scheme ++ [':'])
             host := String.mk hostPart
             pathname := String.mk (if pathChars = [] then ['/'] else pathChars)
             search := String.mk searchChars }
  | _, _ => none

/-- Split a character list on a separator character (model of splitting a
query string on ampersands). -/
def splitSep (sep : Char) : List Char → List (List Char)
  | [] => [[]]
  | c :: cs =>
    match splitSep sep cs with
    | [] => if c = sep then [[], []] else [[c]]
    | g :: gs => if c = sep then [] :: g :: gs else (c :: g) :: gs

/-- Look up the first `key=value` pair with the given key among the split
query-string pairs; a pair without an equals sign has the empty value. -/
def lookupParam (key : List Char) : List (List Char) → Option String
  | [] => none
  | p :: ps =>
    let k := p.takeWhile (fun c => c != '=')
    if k = key then
      match p.dropWhile (fun c => c != '=') with
      | '=' :: rest => some (String.mk rest)
      | _ => some ""
    else lookupParam key ps

/-- Modelled platform behaviour of `url.searchParams.get(key)` for query
strings whose keys and values need no percent-decoding (the token values
the component receives are plain): drop the leading question mark, split
on ampersands, return the first matching value, `none` when absent. -/
def getSearchParam (search key : String) : Option String :=
  let qs := match search.data with
            | '?' :: rest => rest
            | l => l
  if qs = [] then none else lookupParam key.data (splitSep '&' qs)

/-- The pathname transform in `parseUrl`: `url.pathname.replace` with a
regex that removes one trailing slash, if present. -/
def stripTrailingSlash (s : String) : String :=
  match s.data.getLast? with
  | some '/' => String.mk s.data.dropLast
  | _ => s

/-- The `parseUrl` closure of the `wsUrl` effect (source lines 409-434):
parse the endpoint URL, read the `arg` query parameter as the auth token
(empty or missing token fails), and build the WebSocket URL from the
scheme (`https:` becomes `wss:`, anything else becomes `ws:`), the host,
the pathname with one trailing slash stripped followed by `/ws`, and the
original query string.  Returns `none` (the source returns `null`) on an
unparsable URL or a missing token. -/
def parseUrl (wsUrl : String) : Option (String × String) :=
  match parseJSURL wsUrl with
  | none => none
  | some url =>
    let token := (getSearchParam url.search "arg").getD ""
    if token = "" then none
    else
      let wsProtocol := if url.protocol = "https:" then "wss:" else "ws:"
      let wsPath := stripTrailingSlash url.pathname ++ "/ws"
      some (wsProtocol ++ "//" ++ url.host ++ wsPath ++ url.search, token)

/-! ## Frame codec (`sendData`, lines 376-391, and `socket.onmessage`,
lines 475-479) -/

/-- `ClientCommand.INPUT` is the character `'0'`, sent as its ASCII byte. -/
def inputCommandByte : Nat := Char.toNat '0'

/-- `ClientCommand.RESIZE_TERMINAL` is the character `'1'`. -/
def resizeCommandByte : Nat := Char.toNat '1'

/-- The `Uint8Array` branch of `sendData`: allocate `data.length + 1`
bytes, put the INPUT command byte first and copy the payload after it. -/
def sendDataBytes (data : List Nat) : List Nat := inputCommandByte :: data

/-- The frame split performed by `socket.onmessage`: the first byte is the
command, `rawData.slice(1)` is the payload.  An empty frame has no first
byte to read, hence `none`. -/
def decodeFrame : List Nat → Option (Nat × List Nat)
  | [] => none
  | c :: rest => some (c, rest)

/-! ## UTF-8 encoding and the JSON texts sent by the client -/

/-- Modelled platform behaviour: UTF-8 encoding of one Unicode scalar
value, as performed by `TextEncoder.encode`. -/
def utf8Char (c : Char) : List Nat :=
  let n := c.toNat
  if n < 128 then [n]
  else if n < 2048 then [192 + n / 64, 128 + n % 64]
  else if n < 65536 then [224 + n / 4096, 128 + (n / 64) % 64, 128 + n % 64]
  else [240 + n / 262144, 128 + (n / 4096) % 64, 128 + (n / 64) % 64, 128 + n % 64]

/-- UTF-8 encoding of a character sequence. -/
def utf8Chars : List Char → List Nat
  | [] => []
  | c :: cs => utf8Char c ++ utf8Chars cs

/-- The characters of `JSON.stringify(\x7b AuthToken: token, columns, rows \x7d)`
built by `socket.onopen` (lines 462-466), for tokens that need no JSON
string escaping (the tokens the component receives are plain URL-safe
text). -/
def handshakeJsonChars (token : String) (cols rows : Nat) : List Char :=
  "\x7b\"AuthToken\":\"".data ++ token.data ++ "\",\"columns\":".data ++
    (toString cols).data ++ ",\"rows\":".data ++ (toString rows).data ++ "\x7d".data

/-- The handshake frame: the UTF-8 bytes of the JSON text, sent with no
command-byte prefix (`socket.send(textEncoder.encode(authMsg))`). -/
def handshakeFrame (token : String) (cols rows : Nat) : List Nat :=
  utf8Chars (handshakeJsonChars token cols rows)

/-- The characters of `JSON.stringify(\x7b columns: cols, rows \x7d)` built by the
`terminal.onResize` handler (line 318). -/
def resizeJsonChars (cols rows : Nat) : List Char :=
  "\x7b\"columns\":".data ++ (toString cols).data ++ ",\"rows\":".data ++
    (toString rows).data ++ "\x7d".data

/-! ## Client-to-server frame stream of one socket (C5) -/

/-- Events seen by one WebSocket's client side: the `open` event, a user
input submitted through `sendData`, and a `terminal.onResize` event. -/
inductive ClientEv
  | wsOpen
  | input (data : List Nat)
  | resize (cols rows : Nat)

/-- Per-socket client state: whether the socket has reached the OPEN ready
state, and the frames sent so far, in order. -/
structure ClientSession where
  isOpen : Bool
  sent : List (List Nat)
deriving DecidableEq

/-- A socket before its `open` event: nothing sent. -/
def initClient : ClientSession := { isOpen := false, sent := [] }

/-- One client event.  `wsOpen` runs `socket.onopen` (lines 454-472),
which sends the unprefixed handshake JSON; the platform fires `open` at
most once per socket, hence the guard.  `input` runs `sendData`
(lines 376-391), which silently returns unless `readyState` is OPEN and
otherwise sends the INPUT command byte followed by the payload.  `resize`
runs the `terminal.onResize` handler (lines 315-321), which sends the
RESIZE command byte followed by the JSON geometry only when OPEN. -/
def stepClient (token : String) (cols rows : Nat) (s : ClientSession) : ClientEv → ClientSession
  | ClientEv.wsOpen =>
    if s.isOpen then s
    else { isOpen := true, sent := s.sent ++ [handshakeFrame token cols rows] }
  | ClientEv.input d =>
    if s.isOpen then { s with sent := s.sent ++ [sendDataBytes d] } else s
  | ClientEv.resize c r =>
    if s.isOpen then { s with sent := s.sent ++ [resizeCommandByte :: utf8Chars (resizeJsonChars c r)] } else s

/-- Run a list of client events in order. -/
def runClient (token : String) (cols rows : Nat) (s : ClientSession) : List ClientEv → ClientSession
  | [] => s
  | e :: es => runClient token cols rows (stepClient token cols rows s e) es

/-! ## Connect/reconnect state of the `wsUrl` effect (C3, C4, C6) -/

/-- The inline notice written by `socket.onclose` when an unexpected close
schedules a reconnect (line 531). -/
def reconnectNotice : String :=
  "\r\n\x1b[33m[Connection lost. Reconnecting in 3 seconds...]\x1b[0m\r\n"

/-- The inline notice written by `socket.onclose` on a normal or
cleaning-up close (line 541). -/
def closedNotice : String :=
  "\r\n\x1b[31m[Connection closed]\x1b[0m\r\n"

/-- State of one run of the `wsUrl` effect (lines 394-581).
`isCleaningUp` is the `isCleaningUp` flag; `pending` holds the delays of
the live reconnect timers created by `setTimeout` and not yet fired or
cleared (the source keeps at most one, which the proofs confirm);
`socketLive` says whether a socket with an attached `onclose` handler
exists that has not yet delivered its close event (the effect cleanup
detaches the handler and closes the socket, so afterwards no close event
is delivered); `connects` counts the calls of `connect()` that created a
socket; `notices` are the inline strings written to the terminal, newest
first; `disconnects` counts the `onDisconnected` callback invocations. -/
structure TransportState where
  isCleaningUp : Bool
  pending : List Nat
  socketLive : Bool
  connects : Nat
  notices : List String
  disconnects : Nat
deriving DecidableEq

/-- Events driving the `wsUrl` effect: a close event delivered by the
current socket with its close code, the expiry of the oldest live
reconnect timer, and the effect cleanup (component unmount or dependency
change). -/
inductive TransportEv
  | closeEvt (code : Nat)
  | timerFire
  | cleanup

/-- One transport event.

`closeEvt code` runs `socket.onclose` (lines 523-543) when a live socket
exists (a socket delivers at most one close event, and none after the
cleanup has set `onclose` to null): it always invokes `onDisconnected`,
and when not cleaning up and the code is not 1000 it writes the reconnect
notice and schedules a 3000 ms reconnect timer, else it writes the closed
notice.

`timerFire` runs the oldest pending `setTimeout` callback (lines 534-539):
it re-checks `isCleaningUp` and otherwise calls `connect()`, which
creates a fresh socket.

`cleanup` runs the effect cleanup (lines 555-580): it sets the flag,
clears the reconnect timer, detaches the socket handlers and closes the
socket with code 1000 (delivering no further close event to the detached
handler). -/
def stepTransport (s : TransportState) : TransportEv → TransportState
  | TransportEv.closeEvt code =>
    if s.socketLive then
      let s1 := { s with socketLive := false, disconnects := s.disconnects + 1 }
      if s.isCleaningUp = false ∧ code ≠ 1000 then
        { s1 with pending := s1.pending ++ [3000], notices := reconnectNotice :: s1.notices }
      else
        { s1 with notices := closedNotice :: s1.notices }
    else s
  | TransportEv.timerFire =>
    match s.pending with
    | [] => s
    | _ :: rest =>
      let s1 := { s with pending := rest }
      if s1.isCleaningUp then s1
      else { s1 with socketLive := true, connects := s1.connects + 1 }
  | TransportEv.cleanup =>
    { s with isCleaningUp := true, pending := [], socketLive := false }

/-- Run a list of transport events in order. -/
def runTransport (s : TransportState) : List TransportEv → TransportState
  | [] => s
  | e :: es => runTransport (stepTransport s e) es

/-- The state right after the effect body ran with a parsable URL: the
initial `connect()` has been called (lines 445-552), one live socket,
no timers, not cleaning up. -/
def initTransport : TransportState :=
  { isCleaningUp := false, pending := [], socketLive := true, connects := 1,
    notices := [], disconnects := 0 }

/-- The synchronous body of the `wsUrl` effect (lines 436-552): when
`parseUrl` fails it invokes `onDisconnected` once and returns without
creating a socket or a timer, otherwise it calls `connect()`. -/
def effectBody (wsUrl : String) : TransportState :=
  match parseUrl wsUrl with
  | none =>
    { isCleaningUp := false, pending := [], socketLive := false, connects := 0,
      notices := [], disconnects := 1 }
  | some _ => initTransport

/-! ## Line-feed debounce and scroll indicator (C7) -/

/-- Viewport-tracking state: `isAtBottom` is `isAtBottomRef.current`,
`hasNewContent` and `newLineCount` are the React states behind the
indicator button, `debouncePending` says whether a `lineFeedTimeout`
scheduled by `terminal.onLineFeed` is live. -/
structure ViewportState where
  isAtBottom : Bool
  hasNewContent : Bool
  newLineCount : Nat
  debouncePending : Bool
deriving DecidableEq

/-- Events of the viewport tracker: a line-feed event, the expiry of the
debounce timer, and a click on the scroll-to-bottom button. -/
inductive ViewportEv
  | lineFeed
  | debounceFire
  | scrollClick

/-- One viewport event.

`lineFeed` runs `terminal.onLineFeed` (lines 347-360): it clears any
pending `lineFeedTimeout` and schedules a fresh 10 ms one, so exactly one
timer is pending afterwards; the increment itself happens only when the
timer fires.

`debounceFire` runs the scheduled callback (lines 351-359): at bottom it
only scrolls, otherwise it sets `hasNewContent` and increments
`newLineCount` by one.

`scrollClick` runs `handleScrollToBottom` (lines 584-592): scrolls to
bottom, sets `isAtBottomRef.current = true` and resets the two indicator
states. -/
def stepViewport (s : ViewportState) : ViewportEv → ViewportState
  | ViewportEv.lineFeed => { s with debouncePending := true }
  | ViewportEv.debounceFire =>
    if s.debouncePending then
      if s.isAtBottom then { s with debouncePending := false }
      else { s with debouncePending := false, hasNewContent := true,
                    newLineCount := s.newLineCount + 1 }
    else s
  | ViewportEv.scrollClick =>
    { s with isAtBottom := true, hasNewContent := false, newLineCount := 0 }

/-- Run a list of viewport events in order. -/
def runViewport (s : ViewportState) : List ViewportEv → ViewportState
  | [] => s
  | e :: es => runViewport (stepViewport s e) es

/-- A viewport scrolled away from the bottom with no pending indicator:
the starting point of the claimed five-line scenario. -/
def vpScrolledAway : ViewportState :=
  { isAtBottom := false, hasNewContent := false, newLineCount := 0,
    debouncePending := false }

/-- Five line feeds arriving in rapid succession (each within the 10 ms
window of the previous one, so each clears the previous timer), followed
by the expiry of the one surviving debounce timer. -/
def fiveRapidLineFeeds : List ViewportEv :=
  [ViewportEv.lineFeed, ViewportEv.lineFeed, ViewportEv.lineFeed,
   ViewportEv.lineFeed, ViewportEv.lineFeed, ViewportEv.debounceFire]

/-- n line feeds each followed by the expiry of its own debounce timer
(events spaced further apart than the 10 ms window). -/
def spacedLineFeeds : Nat → List ViewportEv
  | 0 => []
  | n + 1 => ViewportEv.lineFeed :: ViewportEv.debounceFire :: spacedLineFeeds n

/-! ## The `terminal.onData` handler and its captured state (C8) -/

/-- State visible to the input handlers: the scroll ref, the two live
React indicator states, and the INPUT frames passed to `sendData`. -/
structure InputUiState where
  isAtBottomRef : Bool
  hasNewContent : Bool
  newLineCount : Nat
  sentInput : List (List Nat)
deriving DecidableEq

/-- The `terminal.onData` handler (lines 284-297) as registered, with the
closure-captured value of the `hasNewContent` React state made explicit:
if not at bottom, scroll to bottom and set the ref; if the captured
`hasNewContent` is true, clear the two indicator states; then send the
data through `sendData` (INPUT command byte plus payload). -/
def onDataStep (capturedHasNewContent : Bool) (s : InputUiState) (data : List Nat) : InputUiState :=
  let s1 := if s.isAtBottomRef then s else { s with isAtBottomRef := true }
  let s2 := if capturedHasNewContent then
              { s1 with hasNewContent := false, newLineCount := 0 }
            else s1
  { s2 with sentInput := s2.sentInput ++ [sendDataBytes data] }

/-- The value of the `hasNewContent` React state captured by the closures
registered in `setupTerminalHandlers`: the handlers are registered once,
from the mount effect with an empty dependency list (line 209 inside the
effect ending at line 229), during the first render, when `hasNewContent`
is its initial value `false` (line 105); they are never re-registered, so
the captured value never changes. -/
def registeredHasNewContent : Bool := false

/-! ## Component timers across disposal (C9) -/

/-- The two timers the component creates, plus disposal bookkeeping:
`firedAfterDispose` records that a timer callback created by the
component ran after the component was disposed. -/
structure TimerState where
  reconnectPending : Bool
  debouncePending : Bool
  disposed : Bool
  firedAfterDispose : Bool
deriving DecidableEq

/-- Timer-relevant events: a line feed (schedules the debounce timer), an
unexpected close (schedules the reconnect timer), the unmount, and the
debounce timer expiring. -/
inductive TimerEv
  | lineFeed
  | scheduleReconnect
  | unmount
  | debounceFires

/-- One timer event.  `lineFeed` leaves exactly one pending debounce timer
(`terminal.onLineFeed`, lines 347-360, clears the previous one and sets a
new one).  `scheduleReconnect` is `socket.onclose` scheduling the 3000 ms
timer (line 534).  `unmount` runs both effect cleanups: the `wsUrl`
cleanup (lines 555-580) clears `reconnectTimeoutId`, and the mount
cleanup (lines 222-228) disposes the addons and the terminal — but the
function returned by `setupTerminalHandlers` (lines 369-372), the only
code that clears `lineFeedTimeout`, is discarded at its call site
(line 209), so a pending debounce timer is left scheduled.
`debounceFires` is the platform running that `setTimeout` callback; when
it runs after disposal it is an orphaned firing. -/
def stepTimers (s : TimerState) : TimerEv → TimerState
  | TimerEv.lineFeed => { s with debouncePending := true }
  | TimerEv.scheduleReconnect => { s with reconnectPending := true }
  | TimerEv.unmount => { s with reconnectPending := false, disposed := true }
  | TimerEv.debounceFires =>
    if s.debouncePending then
      { s with debouncePending := false,
               firedAfterDispose := s.firedAfterDispose || s.disposed }
    else s

/-- Run a list of timer events in order. -/
def runTimers (s : TimerState) : List TimerEv → TimerState
  | [] => s
  | e :: es => runTimers (stepTimers s e) es

/-- A freshly mounted component: no timers, not disposed. -/
def initTimers : TimerState :=
  { reconnectPending := false, debouncePending := false, disposed := false,
    firedAfterDispose := false }

/-! ## The at-bottom test (`isTerminalAtBottom`, lines 113-127) (C10) -/

/-- `isTerminalAtBottom`: reading the active buffer's scroll position
either succeeds with the pair `(viewportY, baseY)` or raises, which the
source represents as a try/catch; the argument `none` is the raising
case.  On success the source returns `viewportY >= baseY - threshold`
with `threshold = 2`, computed over JS numbers, i.e. over integers
(`baseY - 2` may be negative); on an exception it returns `true`. -/
def isTerminalAtBottom (readScroll : Option (Nat × Nat)) : Bool :=
  match readScroll with
  | some vb => decide ((vb.1 : Int) ≥ (vb.2 : Int) - 2)
  | none => true

/-! # Theorems -/

/-! ## C1: wire-URL derivation -/

/-- C1: for every endpoint URL accepted by `parseUrl`, the derived wire URL
is the scheme with `https` replaced by `wss` (anything else, in particular
`http`, by `ws`), the host, the pathname with a trailing slash stripped and
`/ws` appended, and the original query string unchanged; in particular the
two URLs named by the claim derive to `wss://host/path/ws?arg=TOK` and
`ws://host/ws?arg=TOK`. -/
theorem c1_wire_url_derivation (s full token : String) (u : JSURL)
    (hu : parseJSURL s = some u) (hp : parseUrl s = some (full, token)) :
    full = (if u.protocol = "https:" then "wss:" else "ws:") ++ "//" ++ u.host ++
      (stripTrailingSlash u.pathname ++ "/ws") ++ u.search ∧
    parseUrl "https://host/path/?arg=TOK" = some ("wss://host/path/ws?arg=TOK", "TOK") ∧
    parseUrl "http://host?arg=TOK" = some ("ws://host/ws?arg=TOK", "TOK") := by
  refine ⟨?_, by decide, by decide⟩
  unfold parseUrl at hp
  rw [hu] at hp
  by_cases ht : (getSearchParam u.search "arg").getD "" = ""
  · simp only [ht, if_pos rfl] at hp
    exact absurd hp (by simp)
  · simp only [if_neg ht, Option.some.injEq, Prod.mk.injEq] at hp
    exact hp.1.symm

/-- C1 witness: the general derivation applied at the endpoint
`https://host/path/?arg=TOK`, whose parsed form and derived wire URL are
computed concretely. -/
theorem c1_witness :
    parseJSURL "https://host/path/?arg=TOK" =
      some { protocol := "https:", host := "host", pathname := "/path/", search := "?arg=TOK" } ∧
    parseUrl "https://host/path/?arg=TOK" = some ("wss://host/path/ws?arg=TOK", "TOK") ∧
    "wss://host/path/ws?arg=TOK" =
      (if ("https:" : String) = "https:" then "wss:" else "ws:") ++ "//" ++ "host" ++
        (stripTrailingSlash "/path/" ++ "/ws") ++ "?arg=TOK" :=
  ⟨by decide, by decide,
   (c1_wire_url_derivation "https://host/path/?arg=TOK" "wss://host/path/ws?arg=TOK" "TOK"
      { protocol := "https:", host := "host", pathname := "/path/", search := "?arg=TOK" }
      (by decide) (by decide)).1⟩

/-! ## C2: INPUT frame round-trip -/

/-- C2: encoding then decoding an INPUT frame is the identity on the
payload: for every byte sequence `b` (including the empty one and bytes
at or above 0x80), the frame is `b` prefixed with the single INPUT
command byte (the character `'0'`), and decoding reads that first byte
back as the command and the remainder as exactly `b`. -/
theorem c2_input_roundtrip (b : List Nat) :
    sendDataBytes b = inputCommandByte :: b ∧
    decodeFrame (sendDataBytes b) = some (inputCommandByte, b) ∧
    inputCommandByte = Char.toNat '0' :=
  ⟨rfl, rfl, rfl⟩

/-! ## C10: the at-bottom test -/

/-- C10: `isTerminalAtBottom` is a total function (it is defined by
exhaustive pattern matching, so it never fails): on a successful read of
the scroll position it returns true exactly when
`viewportY >= baseY - 2` over the integers (a two-line tolerance below
strict bottom), and when reading the position raises it returns true. -/
theorem c10_isTerminalAtBottom_total (v b : Nat) :
    (isTerminalAtBottom (some (v, b)) = true ↔ (v : Int) ≥ (b : Int) - 2) ∧
    isTerminalAtBottom none = true := by
  constructor
  · simp [isTerminalAtBottom]
  · rfl

/-! ## C7: line-feed counting under the debounce -/

/-- C7 counterexample: with the viewport scrolled away from the bottom,
five line-feed events arriving within each other's 10 ms debounce window
(each `terminal.onLineFeed` call clears the previous timer) leave
`newLineCount` at 1 once the surviving timer fires, not at 5 as the claim
states: the debounce loses the coalesced increments. -/
theorem c7_counterexample :
    (runViewport vpScrolledAway fiveRapidLineFeeds).newLineCount = 1 ∧
    (runViewport vpScrolledAway fiveRapidLineFeeds).newLineCount ≠ 5 ∧
    (runViewport vpScrolledAway fiveRapidLineFeeds).isAtBottom = false := by
  decide

/-- C7 (amended): while the viewport is not at bottom, each expiry of the
10 ms line-feed debounce timer increments `pendingNewLines` by exactly
one, so n line feeds each separated by more than the debounce window
yield a count increased by exactly n and leave `isAtBottom` false; a
subsequent explicit scroll-to-bottom click resets the count to 0, the
new-content flag to false and `isAtBottom` to true. -/
theorem c7_spaced_linefeeds_count (s0 : ViewportState) (n : Nat)
    (h : s0.isAtBottom = false) :
    (runViewport s0 (spacedLineFeeds n)).newLineCount = s0.newLineCount + n ∧
    (runViewport s0 (spacedLineFeeds n)).isAtBottom = false ∧
    (stepViewport (runViewport s0 (spacedLineFeeds n)) ViewportEv.scrollClick).newLineCount = 0 ∧
    (stepViewport (runViewport s0 (spacedLineFeeds n)) ViewportEv.scrollClick).isAtBottom = true ∧
    (stepViewport (runViewport s0 (spacedLineFeeds n)) ViewportEv.scrollClick).hasNewContent = false := by
  have key : ∀ m t, t.isAtBottom = false →
      (runViewport t (spacedLineFeeds m)).newLineCount = t.newLineCount + m ∧
      (runViewport t (spacedLineFeeds m)).isAtBottom = false := by
    intro m
    induction m with
    | zero => intro t ht; exact ⟨rfl, ht⟩
    | succ k ih =>
      intro t ht
      have step2 : runViewport t (spacedLineFeeds (k + 1)) =
          runViewport { t with debouncePending := false, hasNewContent := true,
                               newLineCount := t.newLineCount + 1 } (spacedLineFeeds k) := by
        simp [spacedLineFeeds, runViewport, stepViewport, ht]
      rw [step2]
      have h2 := ih { t with debouncePending := false, hasNewContent := true,
                             newLineCount := t.newLineCount + 1 } ht
      refine ⟨?_, h2.2⟩
      rw [h2.1]
      show t.newLineCount + 1 + k = t.newLineCount + (k + 1)
      omega
  obtain ⟨h1, h2⟩ := key n s0 h
  exact ⟨h1, h2, rfl, rfl, rfl⟩

/-- C7 witness: the amended statement at the concrete scrolled-away
initial state with five spaced line feeds. -/
theorem c7_witness :
    vpScrolledAway.isAtBottom = false ∧
    (runViewport vpScrolledAway (spacedLineFeeds 5)).newLineCount = vpScrolledAway.newLineCount + 5 ∧
    (runViewport vpScrolledAway (spacedLineFeeds 5)).isAtBottom = false ∧
    (stepViewport (runViewport vpScrolledAway (spacedLineFeeds 5)) ViewportEv.scrollClick).newLineCount = 0 ∧
    (stepViewport (runViewport vpScrolledAway (spacedLineFeeds 5)) ViewportEv.scrollClick).isAtBottom = true :=
  ⟨rfl, (c7_spaced_linefeeds_count vpScrolledAway 5 rfl).1,
   (c7_spaced_linefeeds_count vpScrolledAway 5 rfl).2.1,
   (c7_spaced_linefeeds_count vpScrolledAway 5 rfl).2.2.1,
   (c7_spaced_linefeeds_count vpScrolledAway 5 rfl).2.2.2.1⟩

/-! ## C8: typing and the new-content indicator -/

/-- C8: evaluating the registered `terminal.onData` handler at the failing
input (viewport scrolled away, live indicator state `hasNewContent = true`
with three pending lines, keystroke byte 97): the handler scrolls to the
bottom and sends the INPUT frame, but because the closure's captured
`hasNewContent` is the registration-time value `false`, the guard around
the clearing calls never fires, so `hasNewContent` stays true and
`newLineCount` stays 3 — the indicator is not cleared, contrary to the
claim and to the handler's own comment. -/
theorem c8_typing_does_not_clear_indicator :
    (onDataStep registeredHasNewContent
      { isAtBottomRef := false, hasNewContent := true, newLineCount := 3, sentInput := [] }
      [97]).isAtBottomRef = true ∧
    (onDataStep registeredHasNewContent
      { isAtBottomRef := false, hasNewContent := true, newLineCount := 3, sentInput := [] }
      [97]).sentInput = [[inputCommandByte, 97]] ∧
    (onDataStep registeredHasNewContent
      { isAtBottomRef := false, hasNewContent := true, newLineCount := 3, sentInput := [] }
      [97]).hasNewContent = true ∧
    (onDataStep registeredHasNewContent
      { isAtBottomRef := false, hasNewContent := true, newLineCount := 3, sentInput := [] }
      [97]).newLineCount = 3 := by
  decide

/-! ## C9: timers across disposal -/

/-- C9: evaluating the component's timers at the failing input (a line
feed schedules the 10 ms debounce timer, then the component unmounts,
then the platform runs the still-scheduled timeout): the unmount clears
the reconnect timer, but the debounce timer — whose clearing code, the
function returned by `setupTerminalHandlers`, is never invoked — remains
scheduled and fires after disposal, contrary to the claim that no
component timer ever fires after disposal. -/
theorem c9_debounce_timer_fires_after_dispose :
    (runTimers initTimers [TimerEv.lineFeed, TimerEv.scheduleReconnect, TimerEv.unmount,
      TimerEv.debounceFires]).disposed = true ∧
    (runTimers initTimers [TimerEv.lineFeed, TimerEv.scheduleReconnect, TimerEv.unmount,
      TimerEv.debounceFires]).reconnectPending = false ∧
    (runTimers initTimers [TimerEv.lineFeed, TimerEv.scheduleReconnect, TimerEv.unmount,
      TimerEv.debounceFires]).firedAfterDispose = true := by
  decide

/-! ## Transport invariant and the reconnect claims C3, C4, C6 -/

/-- Invariant of the `wsUrl` effect: at most one reconnect timer is ever
pending, and while a socket with attached handlers is live there is no
pending timer and the effect is not cleaning up. -/
def TransportInv (s : TransportState) : Prop :=
  s.pending.length ≤ 1 ∧
  (s.socketLive = true → s.pending = [] ∧ s.isCleaningUp = false)

theorem stepTransport_inv (s : TransportState) (e : TransportEv)
    (h : TransportInv s) : TransportInv (stepTransport s e) := by
  obtain ⟨hlen, hlive⟩ := h
  cases e with
  | closeEvt code =>
    by_cases hl : s.socketLive = true
    · obtain ⟨hp, hc⟩ := hlive hl
      by_cases hcode : s.isCleaningUp = false ∧ code ≠ 1000
      · simp [stepTransport, TransportInv, hl, hcode, hp]
      · simp [stepTransport, TransportInv, hl, hcode, hp]
    · rw [Bool.not_eq_true] at hl
      simp only [stepTransport, hl, Bool.false_eq_true, if_false]
      exact ⟨hlen, hlive⟩
  | timerFire =>
    cases hp : s.pending with
    | nil =>
      simp only [stepTransport, hp]
      exact ⟨by simp [hp], hlive⟩
    | cons d rest =>
      have hrest : rest = [] := by
        rw [hp] at hlen
        simpa using hlen
      by_cases hc : s.isCleaningUp = true
      · simp only [stepTransport, hp, hrest, hc, if_pos rfl]
        refine ⟨by simp, fun hlv => ?_⟩
        exact absurd ((hlive hlv).1) (by simp [hp])
      · simp only [stepTransport, hp, hrest, if_neg hc]
        exact ⟨by simp, fun _ => ⟨rfl, by simpa using hc⟩⟩
  | cleanup =>
    simp [stepTransport, TransportInv]

theorem runTransport_inv (evs : List TransportEv) :
    ∀ s : TransportState, TransportInv s → TransportInv (runTransport s evs) := by
  induction evs with
  | nil => intro s h; exact h
  | cons e es ih =>
    intro s h
    exact ih (stepTransport s e) (stepTransport_inv s e h)

theorem initTransport_inv : TransportInv initTransport := by
  constructor
  · simp [initTransport]
  · intro _; exact ⟨rfl, rfl⟩

/-- C3: at any reachable point of the effect with a live socket (which,
by the invariant, means no reconnect attempt is pending and the effect is
not locally closing), a close event with any code other than 1000
schedules exactly one reconnect timer with the fixed 3000 ms delay and
writes the inline reconnect notice; when that one timer fires, exactly
one further `connect()` happens, the pending set is empty again and the
resulting state again has a live socket outside cleanup — so each further
unexpected close again schedules exactly one attempt, indefinitely. -/
theorem c3_unexpected_close_schedules_one_reconnect (evs : List TransportEv) (code : Nat)
    (hcode : code ≠ 1000)
    (hlive : (runTransport initTransport evs).socketLive = true) :
    (runTransport initTransport evs).pending = [] ∧
    (runTransport initTransport evs).isCleaningUp = false ∧
    (stepTransport (runTransport initTransport evs) (TransportEv.closeEvt code)).pending = [3000] ∧
    (stepTransport (runTransport initTransport evs) (TransportEv.closeEvt code)).notices.head?
      = some reconnectNotice ∧
    (stepTransport (stepTransport (runTransport initTransport evs) (TransportEv.closeEvt code))
      TransportEv.timerFire).connects = (runTransport initTransport evs).connects + 1 ∧
    (stepTransport (stepTransport (runTransport initTransport evs) (TransportEv.closeEvt code))
      TransportEv.timerFire).pending = [] ∧
    (stepTransport (stepTransport (runTransport initTransport evs) (TransportEv.closeEvt code))
      TransportEv.timerFire).socketLive = true ∧
    (stepTransport (stepTransport (runTransport initTransport evs) (TransportEv.closeEvt code))
      TransportEv.timerFire).isCleaningUp = false := by
  obtain ⟨hp, hc⟩ := (runTransport_inv evs initTransport initTransport_inv).2 hlive
  have hclose : stepTransport (runTransport initTransport evs) (TransportEv.closeEvt code) =
      { isCleaningUp := false,
        pending := [3000],
        socketLive := false,
        connects := (runTransport initTransport evs).connects,
        notices := reconnectNotice :: (runTransport initTransport evs).notices,
        disconnects := (runTransport initTransport evs).disconnects + 1 } := by
    simp [stepTransport, hlive, hc, hcode, hp]
  refine ⟨hp, hc, ?_, ?_, ?_, ?_, ?_, ?_⟩ <;>
    rw [hclose] <;> simp [stepTransport]

/-- C3 witness: the schedule-then-reconnect cycle at the initial state
(the first socket live, no events yet) with the concrete abnormal close
code 1006. -/
theorem c3_witness :
    (runTransport initTransport []).socketLive = true ∧
    (stepTransport (runTransport initTransport []) (TransportEv.closeEvt 1006)).pending = [3000] ∧
    (stepTransport (runTransport initTransport []) (TransportEv.closeEvt 1006)).notices.head?
      = some reconnectNotice ∧
    (stepTransport (stepTransport (runTransport initTransport []) (TransportEv.closeEvt 1006))
      TransportEv.timerFire).connects = (runTransport initTransport []).connects + 1 :=
  ⟨rfl,
   (c3_unexpected_close_schedules_one_reconnect [] 1006 (by decide) rfl).2.2.1,
   (c3_unexpected_close_schedules_one_reconnect [] 1006 (by decide) rfl).2.2.2.1,
   (c3_unexpected_close_schedules_one_reconnect [] 1006 (by decide) rfl).2.2.2.2.1⟩

/-- After the cleanup the transport is inert: every further event leaves
the connect count, the empty pending set and the dead socket unchanged. -/
theorem runTransport_after_cleanup (evs : List TransportEv) :
    ∀ s : TransportState, s.isCleaningUp = true → s.pending = [] → s.socketLive = false →
      (runTransport s evs).connects = s.connects ∧
      (runTransport s evs).pending = [] ∧
      (runTransport s evs).socketLive = false ∧
      (runTransport s evs).isCleaningUp = true := by
  induction evs with
  | nil => intro s h1 h2 h3; exact ⟨rfl, h2, h3, h1⟩
  | cons e es ih =>
    intro s h1 h2 h3
    cases e with
    | closeEvt code =>
      have hstep : stepTransport s (TransportEv.closeEvt code) = s := by
        simp [stepTransport, h3]
      simpa [runTransport, hstep] using ih s h1 h2 h3
    | timerFire =>
      have hstep : stepTransport s TransportEv.timerFire = s := by
        simp [stepTransport, h2]
      simpa [runTransport, hstep] using ih s h1 h2 h3
    | cleanup =>
      have h := ih (stepTransport s TransportEv.cleanup) rfl rfl rfl
      simpa [runTransport, stepTransport] using h

/-- C4: once the effect cleanup has run at any reachable point (setting
the cleaning-up flag, clearing the pending reconnect timer, detaching the
close handler and closing the socket normally), no later sequence of
close events or timer expiries ever performs another `connect()`: the
connect count stays exactly what it was before the cleanup, no timer is
pending and no socket is live. -/
theorem c4_no_connect_after_local_close (evs later : List TransportEv) :
    (runTransport (stepTransport (runTransport initTransport evs) TransportEv.cleanup) later).connects
      = (runTransport initTransport evs).connects ∧
    (runTransport (stepTransport (runTransport initTransport evs) TransportEv.cleanup) later).pending
      = [] ∧
    (runTransport (stepTransport (runTransport initTransport evs) TransportEv.cleanup) later).socketLive
      = false := by
  have h := runTransport_after_cleanup later
    (stepTransport (runTransport initTransport evs) TransportEv.cleanup) rfl rfl rfl
  exact ⟨h.1, h.2.1, h.2.2.1⟩

/-- After a failed effect body (no socket, no timer) the transport is
inert: connects stays 0 and the disconnected count stays 1. -/
theorem runTransport_dead (evs : List TransportEv) :
    ∀ s : TransportState, s.socketLive = false → s.pending = [] →
      (runTransport s evs).connects = s.connects ∧
      (runTransport s evs).disconnects = s.disconnects ∧
      (runTransport s evs).pending = [] ∧
      (runTransport s evs).socketLive = false := by
  induction evs with
  | nil => intro s h1 h2; exact ⟨rfl, rfl, h2, h1⟩
  | cons e es ih =>
    intro s h1 h2
    cases e with
    | closeEvt code =>
      have hstep : stepTransport s (TransportEv.closeEvt code) = s := by
        simp [stepTransport, h1]
      simpa [runTransport, hstep] using ih s h1 h2
    | timerFire =>
      have hstep : stepTransport s TransportEv.timerFire = s := by
        simp [stepTransport, h2]
      simpa [runTransport, hstep] using ih s h1 h2
    | cleanup =>
      have h := ih (stepTransport s TransportEv.cleanup) rfl rfl
      simpa [runTransport, stepTransport] using h

/-- C6: for every endpoint URL rejected by `parseUrl` (missing or empty
`arg` token, or unparsable URL), the effect body fails fast: it performs
no `connect()` (connect count 0), invokes the disconnected callback
exactly once, and schedules no retry — and this remains true under every
later event sequence. -/
theorem c6_malformed_endpoint_fails_fast (wsUrl : String) (evs : List TransportEv)
    (h : parseUrl wsUrl = none) :
    (runTransport (effectBody wsUrl) evs).connects = 0 ∧
    (runTransport (effectBody wsUrl) evs).disconnects = 1 ∧
    (runTransport (effectBody wsUrl) evs).pending = [] := by
  have hb : effectBody wsUrl =
      { isCleaningUp := false, pending := [], socketLive := false, connects := 0,
        notices := [], disconnects := 1 } := by
    simp [effectBody, h]
  rw [hb]
  have hd := runTransport_dead evs
    { isCleaningUp := false, pending := [], socketLive := false, connects := 0,
      notices := [], disconnects := 1 } rfl rfl
  exact ⟨hd.1, hd.2.1, hd.2.2.1⟩

/-- C6 witness: the endpoint `https://host/path` (no `arg` token in the
query) is rejected by `parseUrl`, and the effect body at that input never
connects, reports disconnected exactly once and schedules nothing. -/
theorem c6_witness :
    parseUrl "https://host/path" = none ∧
    (runTransport (effectBody "https://host/path") []).connects = 0 ∧
    (runTransport (effectBody "https://host/path") []).disconnects = 1 ∧
    (runTransport (effectBody "https://host/path") []).pending = [] :=
  ⟨by decide,
   (c6_malformed_endpoint_fails_fast "https://host/path" [] (by decide)).1,
   (c6_malformed_endpoint_fails_fast "https://host/path" [] (by decide)).2.1,
   (c6_malformed_endpoint_fails_fast "https://host/path" [] (by decide)).2.2⟩

/-! ## C5: the handshake is the first and only unprefixed frame -/

theorem utf8Chars_append (l1 l2 : List Char) :
    utf8Chars (l1 ++ l2) = utf8Chars l1 ++ utf8Chars l2 := by
  induction l1 with
  | nil => rfl
  | cons c cs ih => simp [utf8Chars, ih]

/-- The first byte of the handshake frame is always 123, the UTF-8 byte
of the opening brace of the JSON object — for every token and geometry. -/
theorem handshakeFrame_head (token : String) (cols rows : Nat) :
    (handshakeFrame token cols rows).head? = some 123 := by
  have h : utf8Chars ("\x7b\"AuthToken\":\"".data)
      = 123 :: [34, 65, 117, 116, 104, 84, 111, 107, 101, 110, 34, 58, 34] := by
    decide
  have key : ∀ l : List Char, (utf8Chars ("\x7b\"AuthToken\":\"".data ++ l)).head? = some 123 := by
    intro l
    rw [utf8Chars_append, h]
    rfl
  rw [handshakeFrame, handshakeJsonChars]
  simp only [List.append_assoc]
  exact key _

/-- Invariant of the per-socket client stream: before the open event
nothing has been sent; from the open event on, the sent stream is the
handshake frame followed only by command-byte-prefixed frames. -/
def ClientInv (token : String) (cols rows : Nat) (s : ClientSession) : Prop :=
  (s.isOpen = false ∧ s.sent = []) ∨
  (s.isOpen = true ∧ ∃ rest, s.sent = handshakeFrame token cols rows :: rest ∧
    ∀ f ∈ rest, f.head? = some inputCommandByte ∨ f.head? = some resizeCommandByte)

theorem stepClient_inv (token : String) (cols rows : Nat) (s : ClientSession)
    (e : ClientEv) (h : ClientInv token cols rows s) :
    ClientInv token cols rows (stepClient token cols rows s e) := by
  cases e with
  | wsOpen =>
    rcases h with ⟨ho, hs⟩ | ⟨ho, rest, hs, hall⟩
    · have hstep : stepClient token cols rows s ClientEv.wsOpen =
          { isOpen := true, sent := s.sent ++ [handshakeFrame token cols rows] } := by
        simp [stepClient, ho]
      right
      rw [hstep]
      exact ⟨rfl, [], by simp [hs], by simp⟩
    · have hstep : stepClient token cols rows s ClientEv.wsOpen = s := by
        simp [stepClient, ho]
      rw [hstep]
      exact Or.inr ⟨ho, rest, hs, hall⟩
  | input d =>
    rcases h with ⟨ho, hs⟩ | ⟨ho, rest, hs, hall⟩
    · have hstep : stepClient token cols rows s (ClientEv.input d) = s := by
        simp [stepClient, ho]
      rw [hstep]
      exact Or.inl ⟨ho, hs⟩
    · have hstep : stepClient token cols rows s (ClientEv.input d) =
          { s with sent := s.sent ++ [sendDataBytes d] } := by
        simp [stepClient, ho]
      right
      rw [hstep]
      refine ⟨ho, rest ++ [sendDataBytes d], by simp [hs], ?_⟩
      intro f hf
      rcases List.mem_append.mp hf with hf1 | hf2
      · exact hall f hf1
      · left
        simp only [List.mem_singleton] at hf2
        rw [hf2]
        rfl
  | resize c r =>
    rcases h with ⟨ho, hs⟩ | ⟨ho, rest, hs, hall⟩
    · have hstep : stepClient token cols rows s (ClientEv.resize c r) = s := by
        simp [stepClient, ho]
      rw [hstep]
      exact Or.inl ⟨ho, hs⟩
    · have hstep : stepClient token cols rows s (ClientEv.resize c r) =
          { s with sent := s.sent ++ [resizeCommandByte :: utf8Chars (resizeJsonChars c r)] } := by
        simp [stepClient, ho]
      right
      rw [hstep]
      refine ⟨ho, rest ++ [resizeCommandByte :: utf8Chars (resizeJsonChars c r)], by simp [hs], ?_⟩
      intro f hf
      rcases List.mem_append.mp hf with hf1 | hf2
      · exact hall f hf1
      · right
        simp only [List.mem_singleton] at hf2
        rw [hf2]
        rfl

theorem runClient_inv (token : String) (cols rows : Nat) (evs : List ClientEv) :
    ∀ s : ClientSession, ClientInv token cols rows s →
      ClientInv token cols rows (runClient token cols rows s evs) := by
  induction evs with
  | nil => intro s h; exact h
  | cons e es ih =>
    intro s h
    exact ih (stepClient token cols rows s e) (stepClient_inv token cols rows s e h)

/-- C5: with `token` the auth token `parseUrl` extracted from the
endpoint URL, whenever the socket has sent anything at all, the very
first frame it sent is the unprefixed UTF-8 JSON handshake carrying the
token and the terminal geometry fixed at connect time; its first byte is
the opening brace (123), not a command byte, while every subsequent
client frame starts with the INPUT or RESIZE command byte. -/
theorem c5_handshake_first_frame (wsUrl full token : String) (cols rows : Nat)
    (evs : List ClientEv)
    (_hurl : parseUrl wsUrl = some (full, token))
    (hne : (runClient token cols rows initClient evs).sent ≠ []) :
    (runClient token cols rows initClient evs).sent.head?
      = some (handshakeFrame token cols rows) ∧
    (handshakeFrame token cols rows).head? = some 123 ∧
    (123 : Nat) ≠ inputCommandByte ∧
    (123 : Nat) ≠ resizeCommandByte ∧
    ∀ f ∈ (runClient token cols rows initClient evs).sent.tail,
      f.head? = some inputCommandByte ∨ f.head? = some resizeCommandByte := by
  have hinv := runClient_inv token cols rows evs initClient (Or.inl ⟨rfl, rfl⟩)
  rcases hinv with ⟨_, hs⟩ | ⟨_, rest, hs, hall⟩
  · exact absurd hs hne
  · rw [hs]
    exact ⟨rfl, handshakeFrame_head token cols rows, by decide, by decide, hall⟩

/-- C5 witness: the session for the endpoint
`https://host/path?arg=tok` with an 80x24 terminal, after its open event
and one typed input: the handshake is the first frame sent and starts
with the brace byte. -/
theorem c5_witness :
    parseUrl "https://host/path?arg=tok" = some ("wss://host/path/ws?arg=tok", "tok") ∧
    (runClient "tok" 80 24 initClient [ClientEv.wsOpen, ClientEv.input [104, 105]]).sent ≠ [] ∧
    (runClient "tok" 80 24 initClient [ClientEv.wsOpen, ClientEv.input [104, 105]]).sent.head?
      = some (handshakeFrame "tok" 80 24) ∧
    (handshakeFrame "tok" 80 24).head? = some 123 :=
  ⟨by decide, by decide,
   (c5_handshake_first_frame "https://host/path?arg=tok" "wss://host/path/ws?arg=tok" "tok" 80 24
      [ClientEv.wsOpen, ClientEv.input [104, 105]] (by decide) (by decide)).1,
   (c5_handshake_first_frame "https://host/path?arg=tok" "wss://host/path/ws?arg=tok" "tok" 80 24
      [ClientEv.wsOpen, ClientEv.input [104, 105]] (by decide) (by decide)).2.1⟩
